import Mathlib

/-!
Azure Data Explorer datasource: credential construction core.

A shallow embedding of `pkg/azuredx/adxauth/aad_client.go` and
`pkg/azuredx/adxauth/adxcredentials/credentials.go`.

* Go `string` values are Lean `String`s (sequences of Unicode code points); byte
  sequences that are not valid UTF-8 are outside the model.
* Pointer arguments (`credentials`, `settings`) are taken as the values they
  point to; a nil pointer, on which the Go code panics, is outside the model.
* A Go function returning `(T, error)` returns a pair whose second component is
  `Option GoError` (`none` is the nil error); library calls whose contract is
  "a value or an error" are `Except GoError T`.
* Library code (regexp, azsettings, azidentity, MSAL confidential) is not part of
  the repository: regexp is modelled for the fragment the pattern uses, the
  others are parameters of the embedded functions.
-/

namespace Adxauth

/-! ## Go error values -/

/-- Go error values as built by `errors.New`, by `fmt.Errorf` without `%w`
(both give a plain message) and by `fmt.Errorf` with `%w` (message plus the
wrapped error returned by `Unwrap`). -/
inductive GoError where
  | errorString (s : String)
  | wrapError (msg : String) (err : GoError)
  deriving DecidableEq, Repr

/-- The method `Error()` of an error value. -/
def GoError.Error : GoError → String
  | .errorString s => s
  | .wrapError msg _ => msg

/-- The method `Unwrap()` as used by `errors.Unwrap`. -/
def GoError.Unwrap : GoError → Option GoError
  | .errorString _ => none
  | .wrapError _ err => some err

/-- Models `errors.New(s)`. -/
def errorsNew (s : String) : GoError := .errorString s

/-! ## The fragment of Go `regexp` used by the tenant id pattern -/

/-- Operators of `regexp/syntax` that consume at most one character. -/
inductive Atom where
  /-- Pattern `^` under the OneLine flag of `syntax.Perl` (OpBeginText). -/
  | BeginText
  /-- Pattern `$` under the OneLine flag of `syntax.Perl` (OpEndText): end of text only. -/
  | EndText
  /-- A literal character (OpLiteral). -/
  | Literal (c : Char)
  /-- A bracket expression (OpCharClass) as its list of inclusive ranges. -/
  | CharClass (negated : Bool) (ranges : List (Char × Char))
  /-- Pattern `.` without the DotNL flag (OpAnyCharNotNL). -/
  | AnyCharNotNL
  deriving DecidableEq, Repr

/-- Repetition applied to an atom: none, `*`, `+` or `?`. -/
inductive Rep where
  | one
  | star
  | plus
  | quest
  deriving DecidableEq, Repr

/-- A compiled pattern of the fragment: a concatenation of repeated atoms. -/
abbrev Regexp := List (Atom × Rep)

/-- Error for pattern text outside the modelled fragment or rejected by Go. -/
def regexpError (what : String) : GoError :=
  .errorString ("error parsing regexp: " ++ what)

/-- Items of a bracket expression after `[` (and after `^` when negated), as in
`parseClass`/`parseClassRange` under Perl flags: `]` closes the class unless it is
the first item, `lo-hi` is a range unless the character after `-` is `]`, and any
other character (a `-` not forming a range included) stands for itself. -/
def parseClassItems : Nat → Bool → List Char → Except GoError (List (Char × Char) × List Char)
  | 0, _, _ => .error (regexpError "missing closing ]")
  | _ + 1, _, [] => .error (regexpError "missing closing ]")
  | fuel + 1, first, c :: cs =>
    if c = ']' ∧ first = false then .ok ([], cs)
    else if c = '\\' then .error (regexpError "escape in character class")
    else if c = '[' ∧ cs.head? = some ':' then .error (regexpError "named character class")
    else
      match cs with
      | '-' :: hi :: rest =>
        if hi = ']' then
          (parseClassItems fuel false cs).map fun r => ((c, c) :: r.1, r.2)
        else if hi = '\\' then .error (regexpError "escape in character class")
        else if hi < c then .error (regexpError "invalid character class range")
        else (parseClassItems fuel false rest).map fun r => ((c, hi) :: r.1, r.2)
      | _ => (parseClassItems fuel false cs).map fun r => ((c, c) :: r.1, r.2)

/-- A bracket expression, the input starting right after `[`. -/
def parseClass (cs : List Char) : Except GoError (Atom × List Char) :=
  match cs with
  | '^' :: rest =>
    (parseClassItems rest.length true rest).map fun r => (Atom.CharClass true r.1, r.2)
  | _ => (parseClassItems cs.length true cs).map fun r => (Atom.CharClass false r.1, r.2)

/-- One atom at the head of the pattern. -/
def parseAtom : List Char → Except GoError (Atom × List Char)
  | [] => .error (regexpError "unexpected end of pattern")
  | c :: cs =>
    if c = '^' then .ok (Atom.BeginText, cs)
    else if c = '$' then .ok (Atom.EndText, cs)
    else if c = '.' then .ok (Atom.AnyCharNotNL, cs)
    else if c = '[' then parseClass cs
    else if c = '*' ∨ c = '+' ∨ c = '?' then
      .error (regexpError "missing argument to repetition operator")
    else if c = '(' ∨ c = ')' ∨ c = '|' ∨ c = '\\' ∨ c = '{' then
      .error (regexpError "operator outside the modelled fragment")
    else .ok (Atom.Literal c, cs)

/-- The repetition operator following an atom, if any. -/
def parseRep : List Char → Rep × List Char
  | '*' :: cs => (Rep.star, cs)
  | '+' :: cs => (Rep.plus, cs)
  | '?' :: cs => (Rep.quest, cs)
  | cs => (Rep.one, cs)

/-- The pattern as a sequence of repeated atoms; a repetition of `^` or `$` is
outside the fragment. -/
def parsePieces : Nat → List Char → Except GoError Regexp
  | 0, [] => .ok []
  | 0, _ :: _ => .error (regexpError "pattern too long")
  | _ + 1, [] => .ok []
  | fuel + 1, c :: cs =>
    match parseAtom (c :: cs) with
    | .error e => .error e
    | .ok (a, rest) =>
      let r := parseRep rest
      if (a = Atom.BeginText ∨ a = Atom.EndText) ∧ r.1 ≠ Rep.one then
        .error (regexpError "repetition of an empty-width operator")
      else (parsePieces fuel r.2).map fun ps => (a, r.1) :: ps

/-- Models `regexp.Compile` on the fragment. -/
def Compile (expr : String) : Except GoError Regexp :=
  parsePieces expr.toList.length expr.toList

/-- Whether a consuming atom accepts the character `c`. -/
def Atom.accepts : Atom → Char → Bool
  | .BeginText, _ => false
  | .EndText, _ => false
  | .Literal l, c => c == l
  | .CharClass negated ranges, c =>
    (ranges.any fun r => decide (r.1 ≤ c) && decide (c ≤ r.2)) != negated
  | .AnyCharNotNL, c => c != '\n'

/-- Zero or more characters accepted by `a` followed by a match of the
continuation `k` on what is left. -/
def matchStar (a : Atom) (k : List Char → Bool) : List Char → Bool
  | [] => k []
  | c :: cs => (a.accepts c && matchStar a k cs) || k (c :: cs)

/-- Whether the pattern matches a prefix of the text `cs`; `atStart` says that
`cs` is the whole text (offset 0), which is where `^` holds. -/
def matchHere : Regexp → Bool → List Char → Bool
  | [], _, _ => true
  | (Atom.BeginText, _) :: ps, atStart, cs => atStart && matchHere ps atStart cs
  | (Atom.EndText, _) :: ps, atStart, cs => cs.isEmpty && matchHere ps atStart cs
  | (a, Rep.one) :: ps, _, cs =>
    match cs with
    | [] => false
    | c :: cs1 => a.accepts c && matchHere ps false cs1
  | (a, Rep.quest) :: ps, atStart, cs =>
    matchHere ps atStart cs ||
      match cs with
      | [] => false
      | c :: cs1 => a.accepts c && matchHere ps false cs1
  | (a, Rep.star) :: ps, atStart, cs =>
    matchHere ps atStart cs ||
      match cs with
      | [] => false
      | c :: cs1 => a.accepts c && matchStar a (matchHere ps false) cs1
  | (a, Rep.plus) :: ps, _, cs =>
    match cs with
    | [] => false
    | c :: cs1 => a.accepts c && matchStar a (matchHere ps false) cs1

/-- Unanchored search: a match starting at some offset of the text. -/
def searchFrom (re : Regexp) : Bool → List Char → Bool
  | atStart, [] => matchHere re atStart []
  | atStart, c :: cs => matchHere re atStart (c :: cs) || searchFrom re false cs

/-- Models `regexp.MatchString(pattern, s)`: compile, then report whether the
text contains any match. -/
def MatchString (pattern : String) (s : String) : Except GoError Bool :=
  match Compile pattern with
  | .error e => .error e
  | .ok re => .ok (searchFrom re true s.toList)

/-! ## `aad_client.go`: `validTenantId` -/

/-- Embeds `validTenantId`. -/
def validTenantId (tenantId : String) : Bool :=
  match MatchString "^[0-9a-zA-Z-.]+$" tenantId with
  | .error _ => false
  | .ok m => m

/-- The character set of the tenant id constraint as the specification words
it: an ASCII digit, an ASCII letter, `-` or `.`. -/
def tenantIdChar (c : Char) : Bool :=
  c.isDigit || c.isAlpha || c == '-' || c == '.'

/-! ## Library types seen by the package -/

/-- The part of `azsettings.AzureCloudSettings` read here. -/
structure AzureCloudSettings where
  AadAuthority : String
  deriving DecidableEq, Repr

/-- The part of `azsettings.AzureSettings` used here: the flag
`ManagedIdentityEnabled` and the results of the methods `GetCloud(name)` and
`GetDefaultCloud()`. -/
structure AzureSettings where
  ManagedIdentityEnabled : Bool
  GetCloud : String → Except GoError AzureCloudSettings
  GetDefaultCloud : String

/-- The fields of `azcredentials.AzureClientSecretCredentials` read or set here. -/
structure AzureClientSecretCredentials where
  AzureCloud : String
  TenantId : String
  ClientId : String
  ClientSecret : String
  deriving DecidableEq, Repr

/-- The interface `azcredentials.AzureCredentials` with the two implementations
built in this repository; `AzureManagedIdentityCredentials` is only ever built
as the empty literal. -/
inductive AzureCredentials where
  | AzureManagedIdentityCredentials
  | AzureClientSecretCredentials (c : Adxauth.AzureClientSecretCredentials)
  deriving DecidableEq, Repr

/-- Identity of a `context.Context` value. -/
abbrev Context := Nat

/-- Identity of an `*http.Client` value. -/
abbrev HTTPClient := Nat

/-- Models `policy.TokenRequestOptions` (the field set here). -/
structure TokenRequestOptions where
  Scopes : List String
  deriving DecidableEq, Repr

/-- Models `azcore.AccessToken`. -/
structure AccessToken where
  Token : String
  ExpiresOn : Nat
  deriving DecidableEq, Repr

/-- Models `azidentity.ManagedIDKind`: `azidentity.ClientID(s)` or
`azidentity.ResourceID(s)`. -/
inductive ManagedIDKind where
  | ClientID (s : String)
  | ResourceID (s : String)
  deriving DecidableEq, Repr

/-- The method `String()` of a managed identity selector. -/
def ManagedIDKind.toString : ManagedIDKind → String
  | .ClientID s => s
  | .ResourceID s => s

/-- Models `azidentity.ManagedIdentityCredentialOptions` (the field set here). -/
structure ManagedIdentityCredentialOptions where
  ID : ManagedIDKind
  deriving DecidableEq, Repr

/-- One token request: the context and the options of a `GetToken` call. -/
structure TokenRequest where
  ctx : Context
  options : TokenRequestOptions
  deriving DecidableEq, Repr

/-- State outside the package that a `GetToken` call can read and change: the
requests the managed identity service has received, oldest first, and the
tokens held in the credential's cache, by scope list. -/
structure IdentityState where
  requests : List TokenRequest
  cache : List (List String × AccessToken)
  deriving DecidableEq, Repr

/-- Models `*azidentity.ManagedIdentityCredential`: the selector it was built
with and its method `GetToken(ctx, opts)`, a library function that is a
parameter here: it may send a request to the service, answer from its cache,
or fail. -/
structure ManagedIdentityCredential where
  ID : ManagedIDKind
  GetToken : Context → TokenRequestOptions → IdentityState →
    (AccessToken × Option GoError) × IdentityState

/-- Models `confidential.AssertionRequestOptions`. -/
structure AssertionRequestOptions where
  ClientID : String
  TokenEndpoint : String
  deriving DecidableEq, Repr

/-- The callback type taken by `confidential.NewCredFromAssertionCallback`, the
state outside the package threaded through. -/
abbrev AssertionCallback :=
  Context → AssertionRequestOptions → IdentityState →
    (String × Option GoError) × IdentityState

/-- Models `confidential.Credential` as built from an assertion callback. -/
structure Credential where
  assertionCallback : AssertionCallback

/-- Models `confidential.NewCredFromAssertionCallback`. -/
def NewCredFromAssertionCallback (callback : AssertionCallback) : Credential :=
  ⟨callback⟩

/-- Models `confidential.Option` values; `WithHTTPClient` is the one used. -/
inductive ClientOption where
  | WithHTTPClient (httpClient : HTTPClient)
  deriving DecidableEq, Repr

/-- Models `confidential.Client`, the value behind the `aadClient` interface:
what the client was built from. -/
structure Client where
  authority : String
  clientID : String
  cred : Credential
  options : List ClientOption

/-- The library functions `newAADClient` calls, as parameters. -/
structure Libs where
  /-- Stands for `runtime.JoinPaths(root, paths...)`. -/
  JoinPaths : String → List String → String
  /-- Stands for `azidentity.NewManagedIdentityCredential(options)`. -/
  NewManagedIdentityCredential :
    ManagedIdentityCredentialOptions → Except GoError ManagedIdentityCredential
  /-- Stands for `confidential.New(authority, clientID, cred, options...)`. -/
  confidentialNew : String → String → Credential → List ClientOption → Except GoError Client

/-- A constructor call made to a library, with its arguments. -/
inductive LibCall where
  | NewManagedIdentityCredential (options : ManagedIdentityCredentialOptions)
  | confidentialNew (authority clientID : String) (cred : Credential)
      (options : List ClientOption)

/-- Models `fmt.Errorf(before + "%s" + after, s)`: no `%w`, so a plain message. -/
def fmtErrorfS (before s after : String) : GoError :=
  .errorString (before ++ s ++ after)

/-- Models `fmt.Errorf(before + "%w", err)`: the message ends in `err.Error()`
and the result unwraps to `err`. -/
def fmtErrorfW (before : String) (err : GoError) : GoError :=
  .wrapError (before ++ err.Error) err

/-! ## `aad_client.go` -/

/-- Embeds `resolveAuthorityForCloud`. -/
def resolveAuthorityForCloud (cloudName : String) (settings : AzureSettings) :
    String × Option GoError :=
  match settings.GetCloud cloudName with
  | .error _ => ("", some (fmtErrorfS "the Azure cloud '" cloudName "' not supported"))
  | .ok cloud => (cloud.AadAuthority, none)

/-- The closure `getAssertion` of `newAADClient`, its captured variables `mic`
and `azScopes` as arguments. -/
def getAssertion (mic : ManagedIdentityCredential) (azScopes : List String) :
    AssertionCallback :=
  fun ctx _ st =>
    let r := mic.GetToken ctx ⟨azScopes⟩ st
    ((r.1.1.Token, r.1.2), r.2)

/-- Embeds `newAADClient`: the returned pair `(aadClient, error)` together with
the library constructors called, in order. -/
def newAADClient (libs : Libs) (credentials : AzureClientSecretCredentials)
    (httpClient : HTTPClient) (settings : AzureSettings) :
    (Option Client × Option GoError) × List LibCall :=
  match resolveAuthorityForCloud credentials.AzureCloud settings with
  | (_, some err) => ((none, some (fmtErrorfW "invalid Azure credentials: " err)), [])
  | (authorityHost, none) =>
    if !validTenantId credentials.TenantId then
      ((none, some (errorsNew "invalid tenantId")), [])
    else
      let authority := libs.JoinPaths authorityHost [credentials.TenantId]
      let azScopes := ["api://AzureADTokenExchange/.default"]
      let micOptions : ManagedIdentityCredentialOptions :=
        ⟨ManagedIDKind.ClientID credentials.ClientSecret⟩
      match libs.NewManagedIdentityCredential micOptions with
      | .error err =>
        ((none, some (fmtErrorfW "error constructing managed identity credential: " err)),
          [LibCall.NewManagedIdentityCredential micOptions])
      | .ok mic =>
        let clientCredential := NewCredFromAssertionCallback (getAssertion mic azScopes)
        let httpClientOpts := ClientOption.WithHTTPClient httpClient
        match libs.confidentialNew authority credentials.ClientId clientCredential
            [httpClientOpts] with
        | .error err =>
          ((none, some err),
            [LibCall.NewManagedIdentityCredential micOptions,
             LibCall.confidentialNew authority credentials.ClientId clientCredential
               [httpClientOpts]])
        | .ok client =>
          ((some client, none),
            [LibCall.NewManagedIdentityCredential micOptions,
             LibCall.confidentialNew authority credentials.ClientId clientCredential
               [httpClientOpts]])

/-! ## `adxcredentials/credentials.go` -/

/-- Embeds `GetDefaultCredentials`. -/
def GetDefaultCredentials (settings : AzureSettings) : AzureCredentials :=
  if settings.ManagedIdentityEnabled then
    AzureCredentials.AzureManagedIdentityCredentials
  else
    AzureCredentials.AzureClientSecretCredentials
      ⟨settings.GetDefaultCloud, "", "", ""⟩

/-! ## Sample values -/

/-- Settings knowing the single cloud `AzureCloud`. -/
def sampleSettings : AzureSettings :=
  ⟨false,
   fun name =>
     if name = "AzureCloud" then .ok ⟨"https://login.microsoftonline.com/"⟩
     else .error (errorsNew "cloud not found"),
   "AzureCloud"⟩

/-- Settings with managed identity enabled and no known cloud. -/
def sampleManagedSettings : AzureSettings :=
  ⟨true, fun _ => .error (errorsNew "cloud not found"), "AzureMars"⟩

/-- A managed identity credential that sends every `GetToken` call to the
service, which answers with a numbered token: a double counting invocations. -/
def sampleMIC (id : ManagedIDKind) : ManagedIdentityCredential :=
  ⟨id, fun ctx opts st =>
    ((⟨"token-" ++ toString st.requests.length, 3600⟩, none),
     ⟨st.requests ++ [⟨ctx, opts⟩], st.cache⟩)⟩

/-- A managed identity credential that answers from its token cache when it
holds a token for the scopes asked, as the azidentity credential does, and
otherwise sends the request to the service and caches the numbered token. -/
def cachingMIC (id : ManagedIDKind) : ManagedIdentityCredential :=
  ⟨id, fun ctx opts st =>
    match st.cache.lookup opts.Scopes with
    | some tk => ((tk, none), st)
    | none =>
      ((⟨"token-" ++ toString st.requests.length, 3600⟩, none),
       ⟨st.requests ++ [⟨ctx, opts⟩],
        (opts.Scopes, ⟨"token-" ++ toString st.requests.length, 3600⟩) :: st.cache⟩)⟩

/-- Libraries that accept every construction. -/
def sampleLibs : Libs :=
  ⟨fun root paths => root ++ "/".intercalate paths,
   fun options => .ok (sampleMIC options.ID),
   fun authority clientID cred options => .ok ⟨authority, clientID, cred, options⟩⟩

/-- Libraries that accept every construction and hand out caching credentials. -/
def cachingLibs : Libs :=
  ⟨fun root paths => root ++ "/".intercalate paths,
   fun options => .ok (cachingMIC options.ID),
   fun authority clientID cred options => .ok ⟨authority, clientID, cred, options⟩⟩

/-- Credentials with a supported cloud, a valid tenant and distinct
`ClientId` and `ClientSecret`. -/
def sampleCredentials : AzureClientSecretCredentials :=
  ⟨"AzureCloud", "contoso.com", "app-client-id", "mi-client-id"⟩

/-! ## The tenant id pattern -/

theorem compile_tenantIdPattern :
    Compile "^[0-9a-zA-Z-.]+$" = .ok [(Atom.BeginText, Rep.one),
      (Atom.CharClass false [('0', '9'), ('a', 'z'), ('A', 'Z'), ('-', '-'), ('.', '.')],
        Rep.plus),
      (Atom.EndText, Rep.one)] := by rfl

theorem accepts_tenantIdClass (c : Char) :
    (Atom.CharClass false
      [('0', '9'), ('a', 'z'), ('A', 'Z'), ('-', '-'), ('.', '.')]).accepts c
      = tenantIdChar c := by
  simp only [Atom.accepts, tenantIdChar, List.any, Char.isDigit, Char.isAlpha, Char.isUpper,
    Char.isLower]
  have h1 : ∀ a b : Char, a ≤ b ↔ a.val.toNat ≤ b.val.toNat := fun _ _ => Iff.rfl
  have h2 : ∀ a b : UInt32, a ≤ b ↔ a.toNat ≤ b.toNat := fun _ _ => Iff.rfl
  have h3 : ∀ a b : Char, a = b ↔ a.val.toNat = b.val.toNat := by
    intro a b
    constructor
    · intro h; rw [h]
    · intro h
      apply Char.ext
      cases ha : a.val with | mk x =>
      cases hb : b.val with | mk y =>
      rw [ha, hb] at h
      simp [UInt32.toNat] at h
      rw [BitVec.eq_of_toNat_eq h]
  rw [Bool.eq_iff_iff]
  simp only [Bool.or_eq_true, Bool.and_eq_true, decide_eq_true_eq, bne_iff_ne, ne_eq,
    Bool.not_eq_false, beq_iff_eq, h1, h2, h3, ge_iff_le, Bool.or_false]
  have e0 : ('0' : Char).val.toNat = 48 := rfl
  have e9 : ('9' : Char).val.toNat = 57 := rfl
  have ea : ('a' : Char).val.toNat = 97 := rfl
  have ez : ('z' : Char).val.toNat = 122 := rfl
  have eA : ('A' : Char).val.toNat = 65 := rfl
  have eZ : ('Z' : Char).val.toNat = 90 := rfl
  have em : ('-' : Char).val.toNat = 45 := rfl
  have ed : ('.' : Char).val.toNat = 46 := rfl
  have n48 : (48 : UInt32).toNat = 48 := rfl
  have n57 : (57 : UInt32).toNat = 57 := rfl
  have n65 : (65 : UInt32).toNat = 65 := rfl
  have n90 : (90 : UInt32).toNat = 90 := rfl
  have n97 : (97 : UInt32).toNat = 97 := rfl
  have n122 : (122 : UInt32).toNat = 122 := rfl
  rw [e0, e9, ea, ez, eA, eZ, em, ed, n48, n57, n65, n90, n97, n122]
  omega

theorem matchHere_endText (atStart : Bool) :
    matchHere [(Atom.EndText, Rep.one)] atStart = List.isEmpty := by
  funext cs
  simp [matchHere]

theorem matchStar_isEmpty (a : Atom) (cs : List Char) :
    matchStar a List.isEmpty cs = cs.all a.accepts := by
  induction cs with
  | nil => simp [matchStar]
  | cons c cs ih => simp [matchStar, ih]

theorem matchHere_beginText_offset (r : Rep) (ps : Regexp) (cs : List Char) :
    matchHere ((Atom.BeginText, r) :: ps) false cs = false := by
  simp [matchHere]

theorem searchFrom_beginText_offset (r : Rep) (ps : Regexp) (cs : List Char) :
    searchFrom ((Atom.BeginText, r) :: ps) false cs = false := by
  induction cs with
  | nil => simp [searchFrom, matchHere]
  | cons c cs ih => simp [searchFrom, matchHere, ih]

theorem validTenantId_eq (tenantId : String) :
    validTenantId tenantId
      = (!tenantId.toList.isEmpty && tenantId.toList.all tenantIdChar) := by
  have hfun : (Atom.CharClass false
      [('0', '9'), ('a', 'z'), ('A', 'Z'), ('-', '-'), ('.', '.')]).accepts = tenantIdChar :=
    funext accepts_tenantIdClass
  unfold validTenantId MatchString
  rw [compile_tenantIdPattern]
  cases h : tenantId.toList with
  | nil => simp [searchFrom, matchHere]
  | cons c cs =>
    simp only [searchFrom, searchFrom_beginText_offset, Bool.or_false]
    rw [matchHere, matchHere, matchHere_endText, matchStar_isEmpty, hfun]
    · simp
    · intro hne; cases hne
    · intro hne; cases hne

theorem toList_ne_nil_iff (s : String) : s.toList ≠ [] ↔ s ≠ "" := by
  cases s with
  | mk l =>
    constructor
    · intro h e
      apply h
      have := congrArg String.toList e
      simpa using this
    · intro h e
      apply h
      simp only [String.toList] at e
      rw [e]

/-- C1: `validTenantId s` is true exactly when `s` is non-empty and every
character of `s` is an ASCII digit, an ASCII letter, `-` or `.`; the strings
"contoso/evil", "tenant?x=1", "tenant id", "../../evil" and a valid id followed
by a newline are rejected. -/
theorem validTenantId_iff :
    (∀ s : String, validTenantId s = true ↔ (s ≠ "" ∧ ∀ c ∈ s.toList, tenantIdChar c = true))
    ∧ validTenantId "contoso/evil" = false
    ∧ validTenantId "tenant?x=1" = false
    ∧ validTenantId "tenant id" = false
    ∧ validTenantId "../../evil" = false
    ∧ validTenantId "contoso.com\n" = false := by
  refine ⟨?_, by decide, by decide, by decide, by decide, by decide⟩
  intro s
  rw [validTenantId_eq, ← toList_ne_nil_iff]
  simp [List.all_eq_true, List.isEmpty_iff]

/-- C2 (counterexample): the empty string is rejected by `validTenantId`. -/
theorem validTenantId_empty_rejected : ¬ (validTenantId "" = true) := by decide

/-- C2 (amended): a string all of whose characters are ASCII digits, ASCII
letters, `-` or `.` is accepted by `validTenantId` exactly when it is
non-empty; the empty string is rejected. -/
theorem validTenantId_of_all_allowed (s : String)
    (h : ∀ c ∈ s.toList, tenantIdChar c = true) :
    validTenantId s = true ↔ s ≠ "" := by
  rw [validTenantId_eq, ← toList_ne_nil_iff]
  simp only [Bool.and_eq_true, Bool.not_eq_true', List.isEmpty_eq_false, List.all_eq_true]
  constructor
  · intro hh; exact hh.1
  · intro hh; exact ⟨hh, h⟩

theorem validTenantId_of_all_allowed_witness :
    (∀ c ∈ "contoso.onmicrosoft.com".toList, tenantIdChar c = true)
    ∧ (validTenantId "contoso.onmicrosoft.com" = true ↔ "contoso.onmicrosoft.com" ≠ "") :=
  ⟨by decide, validTenantId_of_all_allowed "contoso.onmicrosoft.com" (by decide)⟩

/-! ## `resolveAuthorityForCloud` -/

/-- C6: when `settings.GetCloud` fails for the cloud name,
`resolveAuthorityForCloud` returns the empty authority and an error whose
message is "the Azure cloud '<name>' not supported", which contains the name;
when the lookup succeeds it returns that cloud's `AadAuthority` unmodified and
no error. -/
theorem resolveAuthorityForCloud_spec (cloudName : String) (settings : AzureSettings) :
    (∀ e, settings.GetCloud cloudName = .error e →
      ∃ err, resolveAuthorityForCloud cloudName settings = ("", some err)
        ∧ err.Error = "the Azure cloud '" ++ cloudName ++ "' not supported"
        ∧ List.IsInfix cloudName.toList err.Error.toList)
    ∧ (∀ cloud, settings.GetCloud cloudName = .ok cloud →
      resolveAuthorityForCloud cloudName settings = (cloud.AadAuthority, none)) := by
  constructor
  · intro e h
    refine ⟨fmtErrorfS "the Azure cloud '" cloudName "' not supported", ?_, rfl, ?_⟩
    · simp [resolveAuthorityForCloud, h]
    · exact ⟨"the Azure cloud '".toList, "' not supported".toList, by
        simp [fmtErrorfS, GoError.Error, String.toList]⟩
  · intro cloud h
    simp [resolveAuthorityForCloud, h]

theorem resolveAuthorityForCloud_spec_witness :
    (∃ err, resolveAuthorityForCloud "AzureMars" sampleSettings = ("", some err)
        ∧ err.Error = "the Azure cloud '" ++ "AzureMars" ++ "' not supported"
        ∧ List.IsInfix "AzureMars".toList err.Error.toList)
    ∧ resolveAuthorityForCloud "AzureCloud" sampleSettings
        = ("https://login.microsoftonline.com/", none) :=
  ⟨(resolveAuthorityForCloud_spec "AzureMars" sampleSettings).1 (errorsNew "cloud not found") rfl,
   (resolveAuthorityForCloud_spec "AzureCloud" sampleSettings).2
     ⟨"https://login.microsoftonline.com/"⟩ rfl⟩

/-! ## `newAADClient` -/

theorem newAADClient_of_unsupported (libs : Libs) (credentials : AzureClientSecretCredentials)
    (httpClient : HTTPClient) (settings : AzureSettings) (e : GoError)
    (h : settings.GetCloud credentials.AzureCloud = .error e) :
    newAADClient libs credentials httpClient settings
      = ((none, some (GoError.wrapError
          ("invalid Azure credentials: "
            ++ ("the Azure cloud '" ++ credentials.AzureCloud ++ "' not supported"))
          (GoError.errorString
            ("the Azure cloud '" ++ credentials.AzureCloud ++ "' not supported")))), []) := by
  simp [newAADClient, resolveAuthorityForCloud, h, fmtErrorfW, fmtErrorfS, GoError.Error]

theorem newAADClient_of_invalid_tenant (libs : Libs)
    (credentials : AzureClientSecretCredentials) (httpClient : HTTPClient)
    (settings : AzureSettings) (cloud : AzureCloudSettings)
    (hc : settings.GetCloud credentials.AzureCloud = .ok cloud)
    (ht : validTenantId credentials.TenantId = false) :
    newAADClient libs credentials httpClient settings
      = ((none, some (errorsNew "invalid tenantId")), []) := by
  simp [newAADClient, resolveAuthorityForCloud, hc, ht]

/-- C3: when `settings.GetCloud` fails for `credentials.AzureCloud`, whatever
the tenant id, `newAADClient` returns a nil client and the error of
`resolveAuthorityForCloud` wrapped with the text "invalid Azure credentials: "
in front; the error is not "invalid tenantId" and no library constructor is
called. -/
theorem newAADClient_unsupported_cloud (libs : Libs)
    (credentials : AzureClientSecretCredentials) (httpClient : HTTPClient)
    (settings : AzureSettings) (e : GoError)
    (h : settings.GetCloud credentials.AzureCloud = .error e) :
    ∃ inner err,
      resolveAuthorityForCloud credentials.AzureCloud settings = ("", some inner)
      ∧ newAADClient libs credentials httpClient settings = ((none, some err), [])
      ∧ err.Error = "invalid Azure credentials: " ++ inner.Error
      ∧ err.Unwrap = some inner
      ∧ err ≠ errorsNew "invalid tenantId" := by
  refine ⟨GoError.errorString
      ("the Azure cloud '" ++ credentials.AzureCloud ++ "' not supported"), _, ?_,
    newAADClient_of_unsupported libs credentials httpClient settings e h, rfl, rfl, ?_⟩
  · simp [resolveAuthorityForCloud, h, fmtErrorfS]
  · intro hh
    cases hh

theorem newAADClient_unsupported_cloud_witness :
    ∃ inner err,
      resolveAuthorityForCloud "AzureMars" sampleSettings = ("", some inner)
      ∧ newAADClient sampleLibs ⟨"AzureMars", "../../evil", "app", "mi"⟩ 7 sampleSettings
          = ((none, some err), [])
      ∧ err.Error = "invalid Azure credentials: " ++ inner.Error
      ∧ err.Unwrap = some inner
      ∧ err ≠ errorsNew "invalid tenantId" :=
  newAADClient_unsupported_cloud sampleLibs ⟨"AzureMars", "../../evil", "app", "mi"⟩ 7
    sampleSettings (errorsNew "cloud not found") rfl

/-- C4: when the cloud is found and the tenant id fails `validTenantId`,
`newAADClient` returns a nil client and the error "invalid tenantId" without
calling a library constructor, and that error differs from the one returned
for any credentials whose cloud is not found. -/
theorem newAADClient_invalid_tenant (libs : Libs)
    (credentials : AzureClientSecretCredentials) (httpClient : HTTPClient)
    (settings : AzureSettings) (cloud : AzureCloudSettings)
    (hc : settings.GetCloud credentials.AzureCloud = .ok cloud)
    (ht : validTenantId credentials.TenantId = false) :
    newAADClient libs credentials httpClient settings
      = ((none, some (GoError.errorString "invalid tenantId")), [])
    ∧ ∀ (other : AzureClientSecretCredentials) (e : GoError),
        settings.GetCloud other.AzureCloud = .error e →
        (newAADClient libs other httpClient settings).1.2
          ≠ (newAADClient libs credentials httpClient settings).1.2 := by
  have hr := newAADClient_of_invalid_tenant libs credentials httpClient settings cloud hc ht
  refine ⟨hr, ?_⟩
  intro other e he
  rw [hr, newAADClient_of_unsupported libs other httpClient settings e he]
  intro hh
  simp [errorsNew] at hh

theorem newAADClient_invalid_tenant_witness :
    newAADClient sampleLibs ⟨"AzureCloud", "../../evil", "app", "mi"⟩ 7 sampleSettings
      = ((none, some (GoError.errorString "invalid tenantId")), [])
    ∧ ∀ (other : AzureClientSecretCredentials) (e : GoError),
        sampleSettings.GetCloud other.AzureCloud = .error e →
        (newAADClient sampleLibs other 7 sampleSettings).1.2
          ≠ (newAADClient sampleLibs ⟨"AzureCloud", "../../evil", "app", "mi"⟩ 7
              sampleSettings).1.2 :=
  newAADClient_invalid_tenant sampleLibs ⟨"AzureCloud", "../../evil", "app", "mi"⟩ 7
    sampleSettings ⟨"https://login.microsoftonline.com/"⟩ rfl (by decide)

/-- C5: if `newAADClient` returns a client then its error is nil,
`settings.GetCloud` succeeded for `credentials.AzureCloud` and
`validTenantId credentials.TenantId` holds; and whenever it returns an error
the returned client is nil. -/
theorem newAADClient_atomic (libs : Libs) (credentials : AzureClientSecretCredentials)
    (httpClient : HTTPClient) (settings : AzureSettings) :
    (∀ client, (newAADClient libs credentials httpClient settings).1.1 = some client →
      (newAADClient libs credentials httpClient settings).1.2 = none
      ∧ (∃ cloud, settings.GetCloud credentials.AzureCloud = .ok cloud)
      ∧ validTenantId credentials.TenantId = true)
    ∧ (∀ err, (newAADClient libs credentials httpClient settings).1.2 = some err →
      (newAADClient libs credentials httpClient settings).1.1 = none) := by
  cases hc : settings.GetCloud credentials.AzureCloud with
  | error e =>
    rw [newAADClient_of_unsupported libs credentials httpClient settings e hc]
    simp
  | ok cloud =>
    cases ht : validTenantId credentials.TenantId with
    | false =>
      rw [newAADClient_of_invalid_tenant libs credentials httpClient settings cloud hc ht]
      simp
    | true =>
      unfold newAADClient
      simp only [resolveAuthorityForCloud, hc, ht]
      cases hm : libs.NewManagedIdentityCredential
          ⟨ManagedIDKind.ClientID credentials.ClientSecret⟩ with
      | error e => simp
      | ok mic =>
        cases hn : libs.confidentialNew
            (libs.JoinPaths cloud.AadAuthority [credentials.TenantId]) credentials.ClientId
            (NewCredFromAssertionCallback
              (getAssertion mic ["api://AzureADTokenExchange/.default"]))
            [ClientOption.WithHTTPClient httpClient] with
        | error e => simp [hn]
        | ok client => simp [hn]

theorem newAADClient_atomic_witness :
    ((newAADClient sampleLibs sampleCredentials 7 sampleSettings).1.2 = none
      ∧ (∃ cloud, sampleSettings.GetCloud sampleCredentials.AzureCloud = .ok cloud)
      ∧ validTenantId sampleCredentials.TenantId = true)
    ∧ (newAADClient sampleLibs ⟨"AzureCloud", "../../evil", "app", "mi"⟩ 7
        sampleSettings).1.1 = none :=
  ⟨(newAADClient_atomic sampleLibs sampleCredentials 7 sampleSettings).1 _ rfl,
   (newAADClient_atomic sampleLibs ⟨"AzureCloud", "../../evil", "app", "mi"⟩ 7
      sampleSettings).2 _ rfl⟩

/-! ## `GetDefaultCredentials` -/

/-- C7: `GetDefaultCredentials` returns the managed identity variant when
`ManagedIdentityEnabled` is true, and otherwise the client secret variant with
`AzureCloud` equal to `GetDefaultCloud()` and empty `TenantId`, `ClientId` and
`ClientSecret`; settings agreeing on the flag and on the default cloud give the
same result, whatever their cloud lookup says. -/
theorem GetDefaultCredentials_spec (settings : AzureSettings) :
    (settings.ManagedIdentityEnabled = true →
      GetDefaultCredentials settings = AzureCredentials.AzureManagedIdentityCredentials)
    ∧ (settings.ManagedIdentityEnabled = false →
      ∃ c, GetDefaultCredentials settings = AzureCredentials.AzureClientSecretCredentials c
        ∧ c.AzureCloud = settings.GetDefaultCloud
        ∧ c.TenantId = "" ∧ c.ClientId = "" ∧ c.ClientSecret = "")
    ∧ (∀ other : AzureSettings,
      other.ManagedIdentityEnabled = settings.ManagedIdentityEnabled →
      other.GetDefaultCloud = settings.GetDefaultCloud →
      GetDefaultCredentials other = GetDefaultCredentials settings) := by
  refine ⟨?_, ?_, ?_⟩
  · intro h
    simp [GetDefaultCredentials, h]
  · intro h
    exact ⟨⟨settings.GetDefaultCloud, "", "", ""⟩, by simp [GetDefaultCredentials, h],
      rfl, rfl, rfl, rfl⟩
  · intro other h1 h2
    simp [GetDefaultCredentials, h1, h2]

theorem GetDefaultCredentials_spec_witness :
    GetDefaultCredentials sampleManagedSettings
      = AzureCredentials.AzureManagedIdentityCredentials
    ∧ (∃ c, GetDefaultCredentials sampleSettings
          = AzureCredentials.AzureClientSecretCredentials c
        ∧ c.AzureCloud = sampleSettings.GetDefaultCloud
        ∧ c.TenantId = "" ∧ c.ClientId = "" ∧ c.ClientSecret = "")
    ∧ GetDefaultCredentials ⟨true, sampleSettings.GetCloud, "AzureMars"⟩
        = GetDefaultCredentials sampleManagedSettings :=
  ⟨(GetDefaultCredentials_spec sampleManagedSettings).1 rfl,
   (GetDefaultCredentials_spec sampleSettings).2.1 rfl,
   (GetDefaultCredentials_spec sampleManagedSettings).2.2
     ⟨true, sampleSettings.GetCloud, "AzureMars"⟩ rfl rfl⟩

/-! ## The assertion callback and the identifiers passed to the libraries -/

theorem newAADClient_trace (libs : Libs) (credentials : AzureClientSecretCredentials)
    (httpClient : HTTPClient) (settings : AzureSettings) (call : LibCall)
    (h : call ∈ (newAADClient libs credentials httpClient settings).2) :
    call = LibCall.NewManagedIdentityCredential
        ⟨ManagedIDKind.ClientID credentials.ClientSecret⟩
    ∨ ∃ cloud mic,
        settings.GetCloud credentials.AzureCloud = .ok cloud
        ∧ libs.NewManagedIdentityCredential
            ⟨ManagedIDKind.ClientID credentials.ClientSecret⟩ = .ok mic
        ∧ call = LibCall.confidentialNew
            (libs.JoinPaths cloud.AadAuthority [credentials.TenantId]) credentials.ClientId
            (NewCredFromAssertionCallback
              (getAssertion mic ["api://AzureADTokenExchange/.default"]))
            [ClientOption.WithHTTPClient httpClient] := by
  cases hc : settings.GetCloud credentials.AzureCloud with
  | error e =>
    rw [newAADClient_of_unsupported libs credentials httpClient settings e hc] at h
    simp at h
  | ok cloud =>
    cases ht : validTenantId credentials.TenantId with
    | false =>
      rw [newAADClient_of_invalid_tenant libs credentials httpClient settings cloud hc ht] at h
      simp at h
    | true =>
      unfold newAADClient at h
      simp only [resolveAuthorityForCloud, hc, ht] at h
      cases hm : libs.NewManagedIdentityCredential
          ⟨ManagedIDKind.ClientID credentials.ClientSecret⟩ with
      | error e =>
        rw [hm] at h
        simp at h
        exact Or.inl h
      | ok mic =>
        rw [hm] at h
        cases hn : libs.confidentialNew
            (libs.JoinPaths cloud.AadAuthority [credentials.TenantId]) credentials.ClientId
            (NewCredFromAssertionCallback
              (getAssertion mic ["api://AzureADTokenExchange/.default"]))
            [ClientOption.WithHTTPClient httpClient] with
        | error e =>
          simp only [hn] at h
          simp at h
          rcases h with h | h
          · exact Or.inl h
          · exact Or.inr ⟨cloud, mic, rfl, rfl, h⟩
        | ok client =>
          simp only [hn] at h
          simp at h
          rcases h with h | h
          · exact Or.inl h
          · exact Or.inr ⟨cloud, mic, rfl, rfl, h⟩

theorem sampleMIC_records_every_call (id : ManagedIDKind) (ctx : Context)
    (opts : TokenRequestOptions) (st : IdentityState) :
    ((sampleMIC id).GetToken ctx opts st).2.requests = st.requests ++ [⟨ctx, opts⟩] := rfl

theorem getAssertion_sampleMIC_twice :
    (getAssertion (sampleMIC (ManagedIDKind.ClientID "mi-client-id"))
        ["api://AzureADTokenExchange/.default"] 1 ⟨"app-client-id", "token-endpoint"⟩
        ⟨[], []⟩).1 = ("token-0", none)
    ∧ (getAssertion (sampleMIC (ManagedIDKind.ClientID "mi-client-id"))
        ["api://AzureADTokenExchange/.default"] 1 ⟨"app-client-id", "token-endpoint"⟩
        (getAssertion (sampleMIC (ManagedIDKind.ClientID "mi-client-id"))
          ["api://AzureADTokenExchange/.default"] 1 ⟨"app-client-id", "token-endpoint"⟩
          ⟨[], []⟩).2)
      = (("token-1", none),
         ⟨[⟨1, ⟨["api://AzureADTokenExchange/.default"]⟩⟩,
           ⟨1, ⟨["api://AzureADTokenExchange/.default"]⟩⟩], []⟩) := by
  decide

/-- C8 (counterexample): with a managed identity credential that answers from
its token cache, two invocations with the same context of the callback held by
the client that `newAADClient` returns both yield "token-0" and leave one
request, not two, at the managed identity service. -/
theorem assertionCallback_cached_single_request :
    ∃ client,
      (newAADClient cachingLibs sampleCredentials 7 sampleSettings).1 = (some client, none)
      ∧ (client.cred.assertionCallback 1 ⟨"app-client-id", "token-endpoint"⟩ ⟨[], []⟩).1
          = ("token-0", none)
      ∧ (client.cred.assertionCallback 1 ⟨"app-client-id", "token-endpoint"⟩
          (client.cred.assertionCallback 1 ⟨"app-client-id", "token-endpoint"⟩
            ⟨[], []⟩).2).1 = ("token-0", none)
      ∧ (client.cred.assertionCallback 1 ⟨"app-client-id", "token-endpoint"⟩
          (client.cred.assertionCallback 1 ⟨"app-client-id", "token-endpoint"⟩
            ⟨[], []⟩).2).2.requests
          = [⟨1, ⟨["api://AzureADTokenExchange/.default"]⟩⟩]
      ∧ ¬ ((client.cred.assertionCallback 1 ⟨"app-client-id", "token-endpoint"⟩
          (client.cred.assertionCallback 1 ⟨"app-client-id", "token-endpoint"⟩
            ⟨[], []⟩).2).2.requests.length = 0 + 2) :=
  ⟨_, rfl, by decide, by decide, by decide, by decide⟩

/-- C8 (amended): when construction reaches `confidential.New`, the credential
passed to it carries a callback that does no caching of its own: each
invocation is exactly one `GetToken` call on the managed identity credential
built before, with the caller's context and the scope list
["api://AzureADTokenExchange/.default"], returning that call's token string,
error and state unchanged; a second invocation calls `GetToken` again on the
state left by the first; and when the credential sends every `GetToken` call to
the service, two invocations leave two more requests there. -/
theorem assertionCallback_calls_GetToken (libs : Libs)
    (credentials : AzureClientSecretCredentials) (httpClient : HTTPClient)
    (settings : AzureSettings) (cloud : AzureCloudSettings) (mic : ManagedIdentityCredential)
    (hc : settings.GetCloud credentials.AzureCloud = .ok cloud)
    (ht : validTenantId credentials.TenantId = true)
    (hm : libs.NewManagedIdentityCredential
      ⟨ManagedIDKind.ClientID credentials.ClientSecret⟩ = .ok mic) :
    ∃ cred : Credential,
      (newAADClient libs credentials httpClient settings).1
        = (match libs.confidentialNew
              (libs.JoinPaths cloud.AadAuthority [credentials.TenantId])
              credentials.ClientId cred [ClientOption.WithHTTPClient httpClient] with
           | .error err => (none, some err)
           | .ok client => (some client, none))
      ∧ cred = NewCredFromAssertionCallback
          (getAssertion mic ["api://AzureADTokenExchange/.default"])
      ∧ ∀ (ctx : Context) (o1 o2 : AssertionRequestOptions) (st : IdentityState),
        cred.assertionCallback ctx o1 st
            = (((mic.GetToken ctx ⟨["api://AzureADTokenExchange/.default"]⟩ st).1.1.Token,
                (mic.GetToken ctx ⟨["api://AzureADTokenExchange/.default"]⟩ st).1.2),
               (mic.GetToken ctx ⟨["api://AzureADTokenExchange/.default"]⟩ st).2)
        ∧ cred.assertionCallback ctx o2 (cred.assertionCallback ctx o1 st).2
            = (((mic.GetToken ctx ⟨["api://AzureADTokenExchange/.default"]⟩
                  (mic.GetToken ctx ⟨["api://AzureADTokenExchange/.default"]⟩ st).2).1.1.Token,
                (mic.GetToken ctx ⟨["api://AzureADTokenExchange/.default"]⟩
                  (mic.GetToken ctx ⟨["api://AzureADTokenExchange/.default"]⟩ st).2).1.2),
               (mic.GetToken ctx ⟨["api://AzureADTokenExchange/.default"]⟩
                  (mic.GetToken ctx ⟨["api://AzureADTokenExchange/.default"]⟩ st).2).2)
        ∧ ((∀ (c : Context) (opts : TokenRequestOptions) (s : IdentityState),
              (mic.GetToken c opts s).2.requests = s.requests ++ [⟨c, opts⟩]) →
            (cred.assertionCallback ctx o2 (cred.assertionCallback ctx o1 st).2).2.requests
              = st.requests ++ [⟨ctx, ⟨["api://AzureADTokenExchange/.default"]⟩⟩,
                  ⟨ctx, ⟨["api://AzureADTokenExchange/.default"]⟩⟩]) := by
  refine ⟨_, ?_, rfl, ?_⟩
  · unfold newAADClient
    simp only [resolveAuthorityForCloud, hc, ht, hm]
    cases hn : libs.confidentialNew
        (libs.JoinPaths cloud.AadAuthority [credentials.TenantId]) credentials.ClientId
        (NewCredFromAssertionCallback
          (getAssertion mic ["api://AzureADTokenExchange/.default"]))
        [ClientOption.WithHTTPClient httpClient] with
    | error e => simp [hn]
    | ok client => simp [hn]
  · intro ctx o1 o2 st
    refine ⟨rfl, rfl, ?_⟩
    intro hcount
    simp only [NewCredFromAssertionCallback, getAssertion, hcount, List.append_assoc]
    rfl

theorem assertionCallback_calls_GetToken_witness :
    ∃ cred : Credential,
      (newAADClient sampleLibs sampleCredentials 7 sampleSettings).1
        = (match sampleLibs.confidentialNew
              (sampleLibs.JoinPaths "https://login.microsoftonline.com/"
                [sampleCredentials.TenantId])
              sampleCredentials.ClientId cred [ClientOption.WithHTTPClient 7] with
           | .error err => (none, some err)
           | .ok client => (some client, none))
      ∧ cred = NewCredFromAssertionCallback
          (getAssertion (sampleMIC (ManagedIDKind.ClientID "mi-client-id"))
            ["api://AzureADTokenExchange/.default"])
      ∧ ∀ (ctx : Context) (o1 o2 : AssertionRequestOptions) (st : IdentityState),
        cred.assertionCallback ctx o1 st
            = ((((sampleMIC (ManagedIDKind.ClientID "mi-client-id")).GetToken ctx
                  ⟨["api://AzureADTokenExchange/.default"]⟩ st).1.1.Token,
                ((sampleMIC (ManagedIDKind.ClientID "mi-client-id")).GetToken ctx
                  ⟨["api://AzureADTokenExchange/.default"]⟩ st).1.2),
               ((sampleMIC (ManagedIDKind.ClientID "mi-client-id")).GetToken ctx
                  ⟨["api://AzureADTokenExchange/.default"]⟩ st).2)
        ∧ cred.assertionCallback ctx o2 (cred.assertionCallback ctx o1 st).2
            = ((((sampleMIC (ManagedIDKind.ClientID "mi-client-id")).GetToken ctx
                  ⟨["api://AzureADTokenExchange/.default"]⟩
                  ((sampleMIC (ManagedIDKind.ClientID "mi-client-id")).GetToken ctx
                    ⟨["api://AzureADTokenExchange/.default"]⟩ st).2).1.1.Token,
                ((sampleMIC (ManagedIDKind.ClientID "mi-client-id")).GetToken ctx
                  ⟨["api://AzureADTokenExchange/.default"]⟩
                  ((sampleMIC (ManagedIDKind.ClientID "mi-client-id")).GetToken ctx
                    ⟨["api://AzureADTokenExchange/.default"]⟩ st).2).1.2),
               ((sampleMIC (ManagedIDKind.ClientID "mi-client-id")).GetToken ctx
                  ⟨["api://AzureADTokenExchange/.default"]⟩
                  ((sampleMIC (ManagedIDKind.ClientID "mi-client-id")).GetToken ctx
                    ⟨["api://AzureADTokenExchange/.default"]⟩ st).2).2)
        ∧ ((∀ (c : Context) (opts : TokenRequestOptions) (s : IdentityState),
              ((sampleMIC (ManagedIDKind.ClientID "mi-client-id")).GetToken c opts s).2.requests
                = s.requests ++ [⟨c, opts⟩]) →
            (cred.assertionCallback ctx o2 (cred.assertionCallback ctx o1 st).2).2.requests
              = st.requests ++ [⟨ctx, ⟨["api://AzureADTokenExchange/.default"]⟩⟩,
                  ⟨ctx, ⟨["api://AzureADTokenExchange/.default"]⟩⟩]) :=
  assertionCallback_calls_GetToken sampleLibs sampleCredentials 7 sampleSettings
    ⟨"https://login.microsoftonline.com/"⟩ (sampleMIC (ManagedIDKind.ClientID "mi-client-id"))
    rfl (by decide) rfl

/-- C9 (counterexample): on credentials with `ClientId` "app-client-id" and
`ClientSecret` "mi-client-id" the managed identity selector is "mi-client-id"
while the client identifier passed to `confidential.New` is "app-client-id", so
the two identifiers are not always the same string. -/
theorem selector_differs_from_clientID :
    ¬ ∀ (libs : Libs) (credentials : AzureClientSecretCredentials) (httpClient : HTTPClient)
        (settings : AzureSettings) (micOptions : ManagedIdentityCredentialOptions)
        (authority clientID : String) (cred : Credential) (options : List ClientOption),
        LibCall.NewManagedIdentityCredential micOptions
          ∈ (newAADClient libs credentials httpClient settings).2 →
        LibCall.confidentialNew authority clientID cred options
          ∈ (newAADClient libs credentials httpClient settings).2 →
        micOptions.ID.toString = clientID := by
  intro hall
  have := hall sampleLibs sampleCredentials 7 sampleSettings
    ⟨ManagedIDKind.ClientID "mi-client-id"⟩
    "https://login.microsoftonline.com/contoso.com" "app-client-id"
    (NewCredFromAssertionCallback
      (getAssertion (sampleMIC (ManagedIDKind.ClientID "mi-client-id"))
        ["api://AzureADTokenExchange/.default"]))
    [ClientOption.WithHTTPClient 7]
    (List.mem_cons_self _ _)
    (List.mem_cons_of_mem _ (List.mem_cons_self _ _))
  revert this
  decide

/-- C9 (amended): whenever `newAADClient` reaches the construction steps, the
managed identity selector is `azidentity.ClientID(credentials.ClientSecret)` and
the client identifier passed to `confidential.New` is `credentials.ClientId`. -/
theorem selector_and_clientID_fields (libs : Libs)
    (credentials : AzureClientSecretCredentials) (httpClient : HTTPClient)
    (settings : AzureSettings) :
    (∀ micOptions, LibCall.NewManagedIdentityCredential micOptions
        ∈ (newAADClient libs credentials httpClient settings).2 →
      micOptions.ID = ManagedIDKind.ClientID credentials.ClientSecret)
    ∧ (∀ authority clientID cred options,
      LibCall.confidentialNew authority clientID cred options
        ∈ (newAADClient libs credentials httpClient settings).2 →
      clientID = credentials.ClientId) := by
  constructor
  · intro micOptions h
    rcases newAADClient_trace libs credentials httpClient settings _ h with h1 | h1
    · injection h1 with h2
      rw [h2]
    · obtain ⟨_, _, _, _, heq⟩ := h1
      cases heq
  · intro authority clientID cred options h
    rcases newAADClient_trace libs credentials httpClient settings _ h with h1 | h1
    · cases h1
    · obtain ⟨_, _, _, _, heq⟩ := h1
      injection heq

theorem selector_and_clientID_fields_witness :
    (⟨ManagedIDKind.ClientID "mi-client-id"⟩ : ManagedIdentityCredentialOptions).ID
      = ManagedIDKind.ClientID sampleCredentials.ClientSecret
    ∧ "app-client-id" = sampleCredentials.ClientId :=
  ⟨(selector_and_clientID_fields sampleLibs sampleCredentials 7 sampleSettings).1
     ⟨ManagedIDKind.ClientID "mi-client-id"⟩ (List.mem_cons_self _ _),
   (selector_and_clientID_fields sampleLibs sampleCredentials 7 sampleSettings).2
     "https://login.microsoftonline.com/contoso.com" "app-client-id"
     (NewCredFromAssertionCallback
       (getAssertion (sampleMIC (ManagedIDKind.ClientID "mi-client-id"))
         ["api://AzureADTokenExchange/.default"]))
     [ClientOption.WithHTTPClient 7]
     (List.mem_cons_of_mem _ (List.mem_cons_self _ _))⟩

/-! ## The default client secret descriptor -/

/-- C10: when `ManagedIdentityEnabled` is false, `newAADClient` applied to the
descriptor of `GetDefaultCredentials` returns a nil client and an error without
calling a library constructor: "invalid tenantId" when the default cloud is
found, and the wrapped "invalid Azure credentials: ..." error when it is not. -/
theorem newAADClient_default_credentials (libs : Libs) (httpClient : HTTPClient)
    (settings : AzureSettings) (h : settings.ManagedIdentityEnabled = false) :
    ∃ c, GetDefaultCredentials settings = AzureCredentials.AzureClientSecretCredentials c
      ∧ (newAADClient libs c httpClient settings).1.1 = none
      ∧ (newAADClient libs c httpClient settings).1.2 ≠ none
      ∧ (newAADClient libs c httpClient settings).2 = []
      ∧ (∀ cloud, settings.GetCloud settings.GetDefaultCloud = .ok cloud →
          (newAADClient libs c httpClient settings).1.2
            = some (GoError.errorString "invalid tenantId"))
      ∧ (∀ e, settings.GetCloud settings.GetDefaultCloud = .error e →
          (newAADClient libs c httpClient settings).1.2
            = some (GoError.wrapError
                ("invalid Azure credentials: "
                  ++ ("the Azure cloud '" ++ settings.GetDefaultCloud ++ "' not supported"))
                (GoError.errorString
                  ("the Azure cloud '" ++ settings.GetDefaultCloud ++ "' not supported")))) := by
  refine ⟨⟨settings.GetDefaultCloud, "", "", ""⟩, by simp [GetDefaultCredentials, h], ?_⟩
  have hempty : validTenantId "" = false := by decide
  cases hc : settings.GetCloud settings.GetDefaultCloud with
  | error e =>
    rw [newAADClient_of_unsupported libs ⟨settings.GetDefaultCloud, "", "", ""⟩ httpClient
      settings e hc]
    simp
  | ok cloud =>
    rw [newAADClient_of_invalid_tenant libs ⟨settings.GetDefaultCloud, "", "", ""⟩ httpClient
      settings cloud hc hempty]
    simp [errorsNew]

theorem newAADClient_default_credentials_witness :
    sampleSettings.ManagedIdentityEnabled = false
    ∧ ∃ c, GetDefaultCredentials sampleSettings
          = AzureCredentials.AzureClientSecretCredentials c
      ∧ (newAADClient sampleLibs c 7 sampleSettings).1.1 = none
      ∧ (newAADClient sampleLibs c 7 sampleSettings).1.2 ≠ none
      ∧ (newAADClient sampleLibs c 7 sampleSettings).2 = []
      ∧ (∀ cloud, sampleSettings.GetCloud sampleSettings.GetDefaultCloud = .ok cloud →
          (newAADClient sampleLibs c 7 sampleSettings).1.2
            = some (GoError.errorString "invalid tenantId"))
      ∧ (∀ e, sampleSettings.GetCloud sampleSettings.GetDefaultCloud = .error e →
          (newAADClient sampleLibs c 7 sampleSettings).1.2
            = some (GoError.wrapError
                ("invalid Azure credentials: "
                  ++ ("the Azure cloud '" ++ sampleSettings.GetDefaultCloud
                    ++ "' not supported"))
                (GoError.errorString
                  ("the Azure cloud '" ++ sampleSettings.GetDefaultCloud
                    ++ "' not supported")))) :=
  ⟨rfl, newAADClient_default_credentials sampleLibs 7 sampleSettings rfl⟩

end Adxauth
